import Mathlib

/-!
Verification of the eventflow analytics pipeline against its specification.

The definitions below are a shallow embedding of the Python sources under
`backend/analytics/`.  Byte strings are modelled as `List Nat` (each entry a
byte value; Python `str.encode` gives the byte view of a payload), machine
words as `Nat` reduced modulo `2 ^ 32` where the source wraps, database rows
as Lean structures, nullable columns as `Option`, and the nondeterministic
environment of a task (clock readings, broker and HTTP outcomes) as explicit
arguments.  Commit points of a task are made visible as a list of committed
row states so that invariants over intermediate states can be stated.
-/

namespace EventFlow

/-! ## Python-style association maps

JSONB property maps are embedded as association lists with Python dict
semantics: assignment `m[k] = v` overwrites an existing binding in place or
appends a new one, and lookup returns the bound value. -/

/-- Lookup in a Python-dict style association list. -/
def dictGet (m : List (String × String)) (k : String) : Option String :=
  match m with
  | [] => none
  | (k1, v1) :: t => if k1 = k then some v1 else dictGet t k

/-- Assignment `m[k] = v` on a Python dict: overwrite in place or append. -/
def dictSet (m : List (String × String)) (k : String) (v : String) :
    List (String × String) :=
  match m with
  | [] => [(k, v)]
  | (k1, v1) :: t => if k1 = k then (k, v) :: t else (k1, v1) :: dictSet t k v

/-! ## Signer (`services/webhook.py`, `generate_signature` / `verify_signature`)

`hashlib.sha256` and `hmac.new(..., hashlib.sha256)` are embedded as an
executable FIPS 180-4 SHA-256 over byte lists, followed by RFC 2104 HMAC,
exactly the computation the Python standard library performs on the UTF-8
bytes of the payload and secret strings. -/

/-- Reduction modulo the 32-bit word size. -/
def w32 (n : Nat) : Nat := n % 4294967296

/-- Rotate a 32-bit word right by `n` bits. -/
def rotr (n x : Nat) : Nat := w32 ((x >>> n) ||| (x <<< (32 - n)))

/-- Bitwise complement on 32-bit words. -/
def not32 (x : Nat) : Nat := w32 (x ^^^ 4294967295)

/-- SHA-256 `Ch` function. -/
def ch (x y z : Nat) : Nat := (x &&& y) ^^^ (not32 x &&& z)

/-- SHA-256 `Maj` function. -/
def maj (x y z : Nat) : Nat := (x &&& y) ^^^ (x &&& z) ^^^ (y &&& z)

/-- SHA-256 big sigma 0. -/
def bSig0 (x : Nat) : Nat := rotr 2 x ^^^ rotr 13 x ^^^ rotr 22 x

/-- SHA-256 big sigma 1. -/
def bSig1 (x : Nat) : Nat := rotr 6 x ^^^ rotr 11 x ^^^ rotr 25 x

/-- SHA-256 small sigma 0. -/
def sSig0 (x : Nat) : Nat := rotr 7 x ^^^ rotr 18 x ^^^ (x >>> 3)

/-- SHA-256 small sigma 1. -/
def sSig1 (x : Nat) : Nat := rotr 17 x ^^^ rotr 19 x ^^^ (x >>> 10)

/-- The 64 SHA-256 round constants of FIPS 180-4, written in decimal. -/
def K256 : List Nat :=
  [1116352408, 1899447441, 3049323471, 3921009573, 961987163,
   1508970993, 2453635748, 2870763221, 3624381080, 310598401,
   607225278, 1426881987, 1925078388, 2162078206, 2614888103,
   3248222580, 3835390401, 4022224774, 264347078, 604807628,
   770255983, 1249150122, 1555081692, 1996064986, 2554220882,
   2821834349, 2952996808, 3210313671, 3336571891, 3584528711,
   113926993, 338241895, 666307205, 773529912, 1294757372,
   1396182291, 1695183700, 1986661051, 2177026350, 2456956037,
   2730485921, 2820302411, 3259730800, 3345764771, 3516065817,
   3600352804, 4094571909, 275423344, 430227734, 506948616,
   659060556, 883997877, 958139571, 1322822218, 1537002063,
   1747873779, 1955562222, 2024104815, 2227730452, 2361852424,
   2428436474, 2756734187, 3204031479, 3329325298]

/-- The SHA-256 hash state: eight 32-bit words. -/
structure Hash8 where
  ha : Nat
  hb : Nat
  hc : Nat
  hd : Nat
  he : Nat
  hf : Nat
  hg : Nat
  hh : Nat

/-- SHA-256 initial hash value of FIPS 180-4, written in decimal. -/
def sha256Init : Hash8 :=
  ⟨1779033703, 3144134277, 1013904242, 2773480762,
   1359893119, 2600822924, 528734635, 1541459225⟩

/-- SHA-256 message padding: append `0x80`, zeros up to 56 mod 64 bytes, and
the bit length as an 8-byte big-endian integer. -/
def sha256Pad (m : List Nat) : List Nat :=
  let L := m.length
  let zeros := (119 - L % 64) % 64
  m ++ [128] ++ List.replicate zeros 0 ++
    (List.range 8).map (fun i => ((8 * L) >>> ((7 - i) * 8)) % 256)

/-- The sixteen big-endian 32-bit words of one 64-byte block. -/
def blockWords (b : List Nat) : List Nat :=
  (List.range 16).map (fun j =>
    (b.getD (4 * j) 0) * 16777216 + (b.getD (4 * j + 1) 0) * 65536 +
    (b.getD (4 * j + 2) 0) * 256 + b.getD (4 * j + 3) 0)

/-- The 64-entry SHA-256 message schedule of one block. -/
def schedule (b : List Nat) : List Nat :=
  (List.range 48).foldl
    (fun ws t =>
      ws ++ [w32 (sSig1 (ws.getD (t + 14) 0) + ws.getD (t + 9) 0 +
                  sSig0 (ws.getD (t + 1) 0) + ws.getD t 0)])
    (blockWords b)

/-- One SHA-256 round: consume one schedule word and one round constant. -/
def round256 (s : Hash8) (kw : Nat × Nat) : Hash8 :=
  let t1 := w32 (s.hh + bSig1 s.he + ch s.he s.hf s.hg + kw.1 + kw.2)
  let t2 := w32 (bSig0 s.ha + maj s.ha s.hb s.hc)
  ⟨w32 (t1 + t2), s.ha, s.hb, s.hc, w32 (s.hd + t1), s.he, s.hf, s.hg⟩

/-- SHA-256 compression of one 64-byte block into the running hash. -/
def compress (h : Hash8) (b : List Nat) : Hash8 :=
  let s := (K256.zip (schedule b)).foldl round256 h
  ⟨w32 (h.ha + s.ha), w32 (h.hb + s.hb), w32 (h.hc + s.hc), w32 (h.hd + s.hd),
   w32 (h.he + s.he), w32 (h.hf + s.hf), w32 (h.hg + s.hg), w32 (h.hh + s.hh)⟩

/-- Big-endian byte serialization of one 32-bit word. -/
def wordBytes (w : Nat) : List Nat :=
  [(w >>> 24) % 256, (w >>> 16) % 256, (w >>> 8) % 256, w % 256]

/-- SHA-256 digest of a byte list, as 32 bytes. -/
def sha256 (m : List Nat) : List Nat :=
  let p := sha256Pad m
  let h := (List.range (p.length / 64)).foldl
    (fun h i => compress h ((p.drop (64 * i)).take 64)) sha256Init
  wordBytes h.ha ++ wordBytes h.hb ++ wordBytes h.hc ++ wordBytes h.hd ++
  wordBytes h.he ++ wordBytes h.hf ++ wordBytes h.hg ++ wordBytes h.hh

/-- RFC 2104 HMAC-SHA256 over byte lists (the computation of
`hmac.new(secret, payload, hashlib.sha256)`). -/
def hmacSha256 (secret payload : List Nat) : List Nat :=
  let key := if secret.length > 64 then sha256 secret else secret
  let key0 := key ++ List.replicate (64 - key.length) 0
  sha256 ((key0.map (fun b => b ^^^ 92)) ++
          sha256 ((key0.map (fun b => b ^^^ 54)) ++ payload))

/-- A lowercase hexadecimal digit character. -/
def hexChar (n : Nat) : Char :=
  Char.ofNat (if n < 10 then 48 + n else 87 + n)

/-- Lowercase hexadecimal rendering of a byte list (`.hexdigest()`). -/
def toHex (bs : List Nat) : String :=
  String.mk (bs.foldr (fun b acc => hexChar (b / 16) :: hexChar (b % 16) :: acc) [])

/-- `WebhookService.generate_signature`: HMAC-SHA256 hex digest of the
payload bytes under the secret bytes. -/
def generate_signature (payload secret : List Nat) : String :=
  toHex (hmacSha256 secret payload)

/-- `hmac.compare_digest` on ASCII digest strings: timing-safe equality,
semantically plain string equality. -/
def compare_digest (a b : String) : Bool := a == b

/-- `WebhookService.verify_signature`: recompute the expected digest and
compare. -/
def verify_signature (payload : List Nat) (signature : String)
    (secret : List Nat) : Bool :=
  compare_digest (generate_signature payload secret) signature

/-! ## HTTP delivery (`services/webhook.py`, `WebhookService.send_webhook`)

The outbound `requests.post` call is the only effect; its possible outcomes
form a closed type: a response with a status code and a body, a
`requests.Timeout`, or another `requests.RequestException` carrying a
message.  Bodies are character sequences (Python `str` slicing is
character-wise). -/

/-- Outcome of the `requests.post` call inside `send_webhook`. -/
inductive HttpOutcome where
  | response (status : Nat) (body : List Char)
  | timeout
  | netError (msg : String)

/-- The result dict returned by `WebhookService.send_webhook`. -/
structure SendResult where
  success : Bool
  status_code : Option Nat
  response_body : Option (List Char)
  error : Option String
  deriving DecidableEq

/-- `WebhookService.send_webhook`, given the outcome of the POST: classifies
a response as success iff the status code is below 400, truncates the body
to 1000 characters (empty body recorded as null), and converts timeout and
network errors into failure results instead of raising. -/
def send_webhook (o : HttpOutcome) : SendResult :=
  match o with
  | .response status body =>
      { success := status < 400
        status_code := some status
        response_body := if body = [] then none else some (body.take 1000)
        error := none }
  | .timeout =>
      { success := false, status_code := none, response_body := none
        error := some "Request timed out" }
  | .netError msg =>
      { success := false, status_code := none, response_body := none
        error := some msg }

/-! ## Event rows and the Event Processor (`tasks/event_processing.py`)

An `Event` row keeps the columns the processor touches: the JSONB
`properties` map (nullable), the `is_processed` status string and the
nullable `processed_at` timestamp.  Clock readings are abstract `Nat`
timestamps rendered with `toString` where the source stores
`datetime.utcnow().isoformat()` into the property map. -/

/-- The columns of an `events` row that `process_event` reads or writes. -/
structure EventRow where
  properties : Option (List (String × String))
  is_processed : String
  processed_at : Option Nat
  deriving DecidableEq

/-- Environment of one `process_event` execution: the two
`datetime.utcnow()` readings and whether `trigger_webhooks.delay` succeeds
(a broker failure there raises into the generic handler). -/
structure ProcCtx where
  now1 : Nat
  now2 : Nat
  enqueueOk : Bool

/-- Task-level result of one execution. -/
inductive TaskResult where
  | ok
  | notFound
  | retry
  deriving DecidableEq

/-- The enrichment step of `process_event` (lines 27-35): only when the
properties map is truthy (non-null and non-empty), copy it and assign the
two metadata keys. -/
def enrich (now1 : Nat) (e : EventRow) : EventRow :=
  match e.properties with
  | none => e
  | some props =>
      if props = [] then e
      else
        let enriched := dictSet (dictSet props "_processed_at" (toString now1)) "_version" "1.0"
        { e with properties := some enriched }

/-- Outcome of one `process_event` execution: the successive committed
states of the event row, and the task result. -/
structure ProcOutcome where
  commits : List EventRow
  result : TaskResult

/-- `process_event`: missing event returns without retry; otherwise the row
is committed as `processing`, enriched in session state, the webhook
trigger is enqueued, and the row is committed as `processed` with
`processed_at` stamped.  If the enqueue raises, the session is rolled back
to the committed `processing` state (discarding the enrichment), the row is
committed as `failed`, and a retry is signalled. -/
def process_event (ctx : ProcCtx) (db : Option EventRow) : ProcOutcome :=
  match db with
  | none => ⟨[], .notFound⟩
  | some ev =>
      let ev1 := { ev with is_processed := "processing" }
      let ev2 := enrich ctx.now1 ev1
      if ctx.enqueueOk then
        ⟨[ev1, { ev2 with is_processed := "processed",
                          processed_at := some ctx.now2 }], .ok⟩
      else
        ⟨[ev1, { ev1 with is_processed := "failed" }], .retry⟩

/-- The committed event row after one execution (last commit, or the
original row when nothing was committed). -/
def afterProcess (ctx : ProcCtx) (db : Option EventRow) : Option EventRow :=
  match db with
  | none => none
  | some ev => some (((process_event ctx db).commits).getLastD ev)

/-- Committed row after a sequence of executions, each re-reading the
store, as under at-least-once redelivery. -/
def afterProcessRuns (ctxs : List ProcCtx) (db : Option EventRow) :
    Option EventRow :=
  ctxs.foldl (fun db ctx => afterProcess ctx db) db

/-! ## Webhook rows and per-subscription delivery
(`tasks/event_processing.py`, `send_single_webhook`)

Counter columns are stored as decimal strings in the source
(`str(int(webhook.success_count or '0') + 1)`); they are embedded as
`Option Nat`, with `getCount` playing the role of `int(x or '0')`. -/

/-- `int(x or '0')` on a nullable decimal-string counter column. -/
def getCount (c : Option Nat) : Nat := c.getD 0

/-- The columns of a `webhooks` row that delivery touches. -/
structure WebhookRow where
  success_count : Option Nat
  failure_count : Option Nat
  last_triggered_at : Option Nat
  deriving DecidableEq

/-- Environment of one `send_single_webhook` execution: whether the
webhook, event and owning user rows exist, the HTTP outcome and the clock.
A missing user raises inside `format_event_payload` before any row is
written. -/
structure DeliverCtx where
  webhookExists : Bool
  eventExists : Bool
  userExists : Bool
  sendOk : Bool
  now : Nat

/-- `send_single_webhook` restricted to the webhook row it mutates: missing
webhook or event returns without retry and without writes; a missing user
raises (retry) before any write; otherwise exactly one of the two counters
is incremented, `last_triggered_at` is stamped, the row is committed, and a
failed HTTP outcome additionally signals a retry. -/
def send_single_webhook (ctx : DeliverCtx) (w : WebhookRow) :
    WebhookRow × TaskResult :=
  if ctx.webhookExists ∧ ctx.eventExists then
    if ctx.userExists then
      if ctx.sendOk then
        ({ w with success_count := some (getCount w.success_count + 1),
                  last_triggered_at := some ctx.now }, .ok)
      else
        ({ w with failure_count := some (getCount w.failure_count + 1),
                  last_triggered_at := some ctx.now }, .retry)
    else (w, .retry)
  else (w, .notFound)

/-- Webhook row after a sequence of delivery executions. -/
def deliverRuns (ctxs : List DeliverCtx) (w : WebhookRow) : WebhookRow :=
  ctxs.foldl (fun w ctx => (send_single_webhook ctx w).1) w

/-! ## Notification rows and the Notification Dispatcher
(`tasks/notifications.py`, `graphql/mutations/notifications.py`) -/

/-- The columns of a `notifications` row the dispatcher and the read
mutations touch.  `retry_count` is stored as a decimal string in the
source and embedded like the webhook counters. -/
structure NotifRow where
  notification_type : String
  title : String
  content : String
  extra_data : List (String × String)
  status : String
  error_message : Option String
  is_read : Bool
  read_at : Option Nat
  sent_at : Option Nat
  retry_count : Option Nat
  deriving DecidableEq

/-- Environment of one `send_webhook_notification` execution: whether the
POST succeeded, the `error` entry of the failure result (absent for plain
HTTP error responses), and the clock. -/
structure NotifSendCtx where
  sendOk : Bool
  err : Option String
  now : Nat

/-- `send_webhook_notification` restricted to the row it mutates: a missing
notification returns without retry; on HTTP success the row is committed
`sent` with `sent_at`; on failure `retry_count` is incremented and, once it
reaches 5, the row is committed `failed` with the captured error message
(default `Max retries exceeded`), after which a retry is signalled. -/
def send_webhook_notification (ctx : NotifSendCtx) (db : Option NotifRow) :
    Option NotifRow × TaskResult :=
  match db with
  | none => (none, .notFound)
  | some n =>
      if ctx.sendOk then
        (some { n with status := "sent", sent_at := some ctx.now }, .ok)
      else
        let rc := getCount n.retry_count + 1
        let n1 := { n with retry_count := some rc }
        if 5 ≤ rc then
          let n2 := { n1 with status := "failed",
                              error_message := some (ctx.err.getD "Max retries exceeded") }
          (some n2, .retry)
        else (some n1, .retry)

/-- Row state after a sequence of failing `send_webhook_notification`
executions (each re-reads the committed row), as under queue redelivery. -/
def runWebhookNotifFailures (fails : List (Option String × Nat))
    (n : NotifRow) : NotifRow :=
  fails.foldl
    (fun n f => ((send_webhook_notification ⟨false, f.1, f.2⟩ (some n)).1).getD n) n

/-- Outcome of `create_and_send_notification`: the committed notification
row states in order, and whether an email-dispatch task was enqueued. -/
structure CreateOutcome where
  commits : List NotifRow
  emailEnqueued : Bool

/-- `create_and_send_notification`: builds a `Notification` with the
column defaults and commits it as `pending`, then dispatches per channel.
The `metadata=` keyword in the source does not name a mapped column of
`Notification` (the column is `extra_data`): SQLAlchemy binds it to a plain
instance attribute shadowing the class-level `MetaData`, so the persisted
`extra_data` column keeps its default empty dict whatever metadata is
supplied.  For `email` the email task is enqueued; for `in_app` the row is
immediately committed `sent` with `sent_at`; any other channel is left
`pending`. -/
def create_and_send_notification (now : Nat)
    (notification_type title content : String)
    (_metadata : Option (List (String × String))) : CreateOutcome :=
  let created : NotifRow :=
    { notification_type := notification_type
      title := title
      content := content
      extra_data := []
      status := "pending"
      error_message := none
      is_read := false
      read_at := none
      sent_at := none
      retry_count := some 0 }
  if notification_type = "email" then ⟨[created], true⟩
  else if notification_type = "in_app" then
    ⟨[created, { created with status := "sent", sent_at := some now }], false⟩
  else ⟨[created], false⟩

/-- `MarkNotificationRead.mutate` on a found, owned notification: sets
`is_read` and `read_at` unconditionally.  Authentication failure and a
missing notification write nothing and are modelled by the `none` case. -/
def markNotificationRead (now : Nat) (db : Option NotifRow) : Option NotifRow :=
  match db with
  | none => none
  | some n => some { n with is_read := true, read_at := some now }

/-- `MarkAllNotificationsRead.mutate` over the rows of one user: the bulk
update touches exactly the rows with `is_read = false`, setting `is_read`
and `read_at`. -/
def markAllNotificationsRead (now : Nat) (ns : List NotifRow) : List NotifRow :=
  ns.map (fun n =>
    if n.is_read = false then { n with is_read := true, read_at := some now }
    else n)

/-! ## Aggregations (`tasks/aggregations.py`, `generate_event_aggregations`)

Python `int()` on the range prefix is embedded as `pyInt`: whitespace is
stripped, an optional sign is read, and the rest must be ASCII digits with
single underscores only between digits. -/

/-- Characters `str.strip` removes and `int()` ignores at the ends. -/
def isPySpace (c : Char) : Bool :=
  c = ' ' ∨ c = '\t' ∨ c = '\n' ∨ c = '\r' ∨ c = '\x0b' ∨ c = '\x0c'

/-- ASCII decimal digit test. -/
def isDigitChar (c : Char) : Bool := 48 ≤ c.toNat && c.toNat ≤ 57

/-- Digit run of `int()`: ASCII digits, underscores allowed only between
two digits. -/
def pyDigitsAux (acc : Nat) : List Char → Option Nat
  | [] => some acc
  | c :: rest =>
      if isDigitChar c then pyDigitsAux (acc * 10 + (c.toNat - 48)) rest
      else if c = '_' then
        match rest with
        | [] => none
        | d :: _ => if isDigitChar d then pyDigitsAux acc rest else none
      else none

/-- Unsigned digit string accepted by `int()`: non-empty and starting with
a digit. -/
def pyIntCore (cs : List Char) : Option Nat :=
  match cs with
  | [] => none
  | c :: _ => if isDigitChar c then pyDigitsAux 0 cs else none

/-- Python `int(s)` on an ASCII string: `some` value, or `none` when it
raises `ValueError`. -/
def pyInt (s : String) : Option Int :=
  let cs := ((s.toList.dropWhile isPySpace).reverse.dropWhile isPySpace).reverse
  match cs with
  | '+' :: rest => (pyIntCore rest).map Int.ofNat
  | '-' :: rest => (pyIntCore rest).map (fun n => -(n : Int))
  | _ => (pyIntCore cs).map Int.ofNat

/-- Python `s.endswith(suf)` on the character view of the strings. -/
def strEndsWith (s suf : String) : Bool := List.isSuffixOf suf.data s.data

/-- Python `s[:-1]`: the string without its last character. -/
def dropLastChar (s : String) : String := ⟨s.data.dropLast⟩

/-- The time-range parse of `generate_event_aggregations` (lines 186-193):
number of days of the window, or `none` when `int()` raises and the task
falls to its error result. -/
def parseWindowDays (time_range : String) : Option Int :=
  if strEndsWith time_range "d" then pyInt (dropLastChar time_range)
  else if strEndsWith time_range "w" then
    (pyInt (dropLastChar time_range)).map (· * 7)
  else if strEndsWith time_range "m" then
    (pyInt (dropLastChar time_range)).map (· * 30)
  else some 7

/-- An `events` row as the aggregation reads it: owner and timestamp
(seconds). -/
structure EventTS where
  user_id : Nat
  ts : Nat
  deriving DecidableEq

/-- Counts per distinct key, keys in first-occurrence order (the embedding
fixes an order where SQL `GROUP BY` leaves it unspecified). -/
def groupCounts (l : List Nat) : List (Nat × Nat) :=
  (l.eraseDups).map (fun d => (d, l.count d))

/-- Result dict of `generate_event_aggregations`. -/
inductive AggResult where
  | ok (daily : List (Nat × Nat)) (hourly : List (Nat × Nat))
  | error
  deriving DecidableEq

/-- `generate_event_aggregations`: parse the window, then return the daily
event counts (key: day number) and the hour-of-day distribution of the
events of the user inside the window; a `ValueError` from the parse is
caught by the generic handler and becomes the error result. -/
def generate_event_aggregations (now : Nat) (events : List EventTS)
    (user_id : Nat) (time_range : String) : AggResult :=
  match parseWindowDays time_range with
  | none => .error
  | some days =>
      let sel := events.filter
        (fun e => e.user_id == user_id &&
                  decide ((e.ts : Int) ≥ (now : Int) - days * 86400))
      .ok (groupCounts (sel.map (fun e => e.ts / 86400)))
          (groupCounts (sel.map (fun e => e.ts % 86400 / 3600)))

/-! ## Auxiliary number/byte coding used to reason about digests -/

/-- Value of a byte list, little-endian base 256. -/
def bytesVal : List Nat → Nat
  | [] => 0
  | b :: t => b + 256 * bytesVal t

/-- The `len` little-endian base-256 digits of a number. -/
def natBytes : Nat → Nat → List Nat
  | 0, _ => []
  | len + 1, n => n % 256 :: natBytes len (n / 256)

/-! ## Sample rows used as concrete instances in the theorems below -/

/-- A fresh pending event with one property. -/
def evP : EventRow := ⟨some [("k", "v")], "pending", none⟩

/-- A fresh pending event whose property map is the empty dict. -/
def evE : EventRow := ⟨some [], "pending", none⟩

/-- A webhook row with zeroed counters. -/
def w0 : WebhookRow := ⟨some 0, some 0, none⟩

/-- A fresh pending webhook-channel notification. -/
def n0 : NotifRow :=
  ⟨"webhook", "t", "c", [], "pending", none, false, none, none, some 0⟩

/-! ## Dictionary lemmas -/

theorem dictGet_dictSet_same (m : List (String × String)) (k v : String) :
    dictGet (dictSet m k v) k = some v := by
  induction m with
  | nil => simp [dictGet, dictSet]
  | cons h t ih =>
      obtain ⟨k1, v1⟩ := h
      by_cases hk : k1 = k
      · simp [dictGet, dictSet, hk]
      · simp [dictGet, dictSet, hk, ih]

theorem dictGet_dictSet_other (m : List (String × String)) (k k' v : String)
    (h : k' ≠ k) : dictGet (dictSet m k v) k' = dictGet m k' := by
  have hk : k ≠ k' := Ne.symm h
  induction m with
  | nil => simp [dictGet, dictSet, hk]
  | cons hd t ih =>
      obtain ⟨k1, v1⟩ := hd
      by_cases h1 : k1 = k
      · subst h1
        simp [dictGet, dictSet, hk]
      · simp [dictGet, dictSet, h1, ih]

/-! ## C1 — the webhook-trigger enqueue inside `process_event` -/

/-- C1 counterexample: a pending event exists and is set to processing, the
enqueue of `trigger_webhooks` fails, and the event is NOT marked processed:
it is committed as `failed` and a retry is raised, refuting the claim that
an enqueue failure does not prevent the `processed` transition. -/
theorem C1_counterexample :
    (process_event ⟨1, 2, false⟩ (some evP)).result = .retry ∧
    (afterProcess ⟨1, 2, false⟩ (some evP)).map EventRow.is_processed =
      some "failed" := by decide

/-- C1 amended: the enqueue of `trigger_webhooks` is not fire-and-forget.
For every event that exists and has been set to processing, an enqueue
failure raises into the generic handler, which marks the event `failed` and
signals a retry; the event is marked `processed` exactly when the enqueue
succeeds. -/
theorem C1_enqueue_failure_blocks_processed (ctx : ProcCtx) (ev : EventRow) :
    (ctx.enqueueOk = false →
      (process_event ctx (some ev)).result = .retry ∧
      (afterProcess ctx (some ev)).map EventRow.is_processed = some "failed") ∧
    (ctx.enqueueOk = true →
      (process_event ctx (some ev)).result = .ok ∧
      (afterProcess ctx (some ev)).map EventRow.is_processed =
        some "processed") := by
  constructor <;> intro h <;>
    simp [process_event, afterProcess, h, List.getLastD]

/-- C1 witness: the amended theorem applied at a concrete context and row. -/
theorem C1_witness :
    (process_event ⟨1, 2, false⟩ (some evP)).result = .retry ∧
    (afterProcess ⟨1, 2, false⟩ (some evP)).map EventRow.is_processed =
      some "failed" :=
  (C1_enqueue_failure_blocks_processed ⟨1, 2, false⟩ evP).1 rfl

/-! ## C2 — the Event status state machine -/

/-- C2 counterexample: a pending event is processed successfully, then the
queue redelivers `process_event` and the webhook enqueue fails.  The final
committed row is `failed` with `processed_at` still stamped from the first
run, refuting both the forward-only transition claim (the redelivery first
commits `processed → processing`) and the claim that `processed_at` is
non-null iff the status is `processed`. -/
theorem C2_counterexample :
    (afterProcessRuns [⟨1, 2, true⟩, ⟨3, 4, false⟩] (some evP)).map
      (fun e => (e.is_processed, e.processed_at)) =
      some ("failed", some 2) ∧
    ((process_event ⟨3, 4, false⟩
        (afterProcessRuns [⟨1, 2, true⟩] (some evP))).commits.map
      EventRow.is_processed) = ["processing", "failed"] := by decide

set_option linter.unusedVariables false in
/-- C2 amended: within a single `process_event` execution on an event in
`pending` status with null `processed_at`, the committed states move
forward along `pending → processing → {processed, failed}` and
`processed_at` is non-null iff the committed status is `processed`.  Across
redeliveries the invariant does not hold (see the counterexample). -/
theorem C2_single_run_forward (ctx : ProcCtx) (ev : EventRow)
    (h1 : ev.is_processed = "pending") (h2 : ev.processed_at = none) :
    ∃ e1 e2, (process_event ctx (some ev)).commits = [e1, e2] ∧
      e1.is_processed = "processing" ∧ e1.processed_at = none ∧
      ((e2.is_processed = "processed" ∧ e2.processed_at = some ctx.now2) ∨
       (e2.is_processed = "failed" ∧ e2.processed_at = none)) := by
  rcases hctx : ctx.enqueueOk with _ | _
  · refine ⟨{ ev with is_processed := "processing" },
      { ev with is_processed := "failed" }, ?_, rfl, h2, Or.inr ⟨rfl, h2⟩⟩
    simp [process_event, hctx]
  · refine ⟨{ ev with is_processed := "processing" },
      { enrich ctx.now1 { ev with is_processed := "processing" } with
        is_processed := "processed", processed_at := some ctx.now2 },
      ?_, rfl, h2, Or.inl ⟨rfl, rfl⟩⟩
    simp [process_event, hctx]

/-- C2 witness: the amended theorem applied at a concrete context and row. -/
theorem C2_witness :
    ∃ e1 e2, (process_event ⟨1, 2, true⟩ (some evP)).commits = [e1, e2] ∧
      e1.is_processed = "processing" ∧ e1.processed_at = none ∧
      ((e2.is_processed = "processed" ∧ e2.processed_at = some 2) ∨
       (e2.is_processed = "failed" ∧ e2.processed_at = none)) :=
  C2_single_run_forward ⟨1, 2, true⟩ evP rfl rfl

/-! ## C4 — property-map enrichment -/

/-- C4 counterexample: an event whose property map is the empty dict is
processed successfully, yet its property map is left exactly empty — the
enrichment keys are not merged, because the source guards the whole
enrichment block with the truthiness of `event.properties`, refuting the
claim that enrichment also reaches events with an empty property map. -/
theorem C4_counterexample :
    afterProcess ⟨1, 2, true⟩ (some evE) =
      some ⟨some [], "processed", some 2⟩ := by decide

/-- C4 amended: for every event processed successfully whose property map
is non-null and non-empty, `_processed_at` and `_version` are written into
the map and every other key keeps its prior value; events with an empty or
null property map are left unenriched. -/
theorem C4_enrichment_preserves_keys (ctx : ProcCtx) (ev : EventRow)
    (props : List (String × String)) (hok : ctx.enqueueOk = true)
    (hp : ev.properties = some props) (hne : props ≠ []) :
    ∃ props2,
      (afterProcess ctx (some ev)).map EventRow.properties =
        some (some props2) ∧
      dictGet props2 "_processed_at" = some (toString ctx.now1) ∧
      dictGet props2 "_version" = some "1.0" ∧
      ∀ k, k ≠ "_processed_at" → k ≠ "_version" →
        dictGet props2 k = dictGet props k := by
  refine ⟨dictSet (dictSet props "_processed_at" (toString ctx.now1))
    "_version" "1.0", ?_, ?_, ?_, ?_⟩
  · simp [afterProcess, process_event, hok, enrich, hp, hne, List.getLastD]
  · rw [dictGet_dictSet_other _ _ _ _ (by decide), dictGet_dictSet_same]
  · exact dictGet_dictSet_same _ _ _
  · intro k hk1 hk2
    rw [dictGet_dictSet_other _ _ _ _ hk2, dictGet_dictSet_other _ _ _ _ hk1]

/-- C4 witness: the amended theorem applied at a concrete context and row. -/
theorem C4_witness :
    ∃ props2,
      (afterProcess ⟨1, 2, true⟩ (some evP)).map EventRow.properties =
        some (some props2) ∧
      dictGet props2 "_processed_at" = some (toString 1) ∧
      dictGet props2 "_version" = some "1.0" ∧
      ∀ k, k ≠ "_processed_at" → k ≠ "_version" →
        dictGet props2 k = dictGet [("k", "v")] k :=
  C4_enrichment_preserves_keys ⟨1, 2, true⟩ evP [("k", "v")] rfl rfl
    (by decide)

/-! ## C5 — webhook delivery counters -/

/-- One delivery execution in which webhook, event and user all exist
increments exactly one of the two counters. -/
theorem deliver_step_sum (ctx : DeliverCtx) (w : WebhookRow)
    (h1 : ctx.webhookExists = true) (h2 : ctx.eventExists = true)
    (h3 : ctx.userExists = true) :
    getCount (send_single_webhook ctx w).1.success_count +
      getCount (send_single_webhook ctx w).1.failure_count =
      getCount w.success_count + getCount w.failure_count + 1 := by
  rcases hs : ctx.sendOk with _ | _ <;>
    simp [send_single_webhook, h1, h2, h3, hs, getCount] <;> omega

/-- Every delivery execution leaves both counters no smaller. -/
theorem deliver_step_mono (ctx : DeliverCtx) (w : WebhookRow) :
    getCount w.success_count ≤
      getCount (send_single_webhook ctx w).1.success_count ∧
    getCount w.failure_count ≤
      getCount (send_single_webhook ctx w).1.failure_count := by
  rcases h1 : ctx.webhookExists with _ | _ <;>
  rcases h2 : ctx.eventExists with _ | _ <;>
  rcases h3 : ctx.userExists with _ | _ <;>
  rcases hs : ctx.sendOk with _ | _ <;>
    simp [send_single_webhook, h1, h2, h3, hs, getCount]

/-- C5 amended: over every sequence of `send_single_webhook` executions in
which the webhook, the event and the owning user all exist,
`success_count + failure_count` grows by exactly the number of executions;
and over every sequence whatsoever both counters are monotonically
non-decreasing.  (An execution that finds the webhook, event or user
missing returns without touching either counter — see the
counterexample.) -/
theorem C5_counter_accounting (ctxs : List DeliverCtx) (w : WebhookRow)
    (hall : ∀ c ∈ ctxs, c.webhookExists = true ∧ c.eventExists = true ∧
      c.userExists = true) :
    (getCount (deliverRuns ctxs w).success_count +
      getCount (deliverRuns ctxs w).failure_count =
      getCount w.success_count + getCount w.failure_count + ctxs.length) ∧
    ∀ ctxs2 : List DeliverCtx,
      getCount w.success_count ≤
        getCount (deliverRuns ctxs2 w).success_count ∧
      getCount w.failure_count ≤
        getCount (deliverRuns ctxs2 w).failure_count := by
  constructor
  · induction ctxs generalizing w with
    | nil => simp [deliverRuns]
    | cons c t ih =>
        have hc := hall c (List.mem_cons_self c t)
        have hstep := deliver_step_sum c w hc.1 hc.2.1 hc.2.2
        have ht := ih (send_single_webhook c w).1
          (fun x hx => hall x (List.mem_cons_of_mem c hx))
        simp only [deliverRuns, List.foldl_cons, List.length_cons] at *
        omega
  · intro ctxs2
    induction ctxs2 generalizing w with
    | nil => simp [deliverRuns]
    | cons c t ih =>
        have hstep := deliver_step_mono c w
        have ht := ih (send_single_webhook c w).1
        simp only [deliverRuns, List.foldl_cons] at *
        exact ⟨le_trans hstep.1 ht.1, le_trans hstep.2 ht.2⟩

/-- C5 witness: the amended theorem applied at one concrete all-present
execution on zeroed counters. -/
theorem C5_witness :
    (getCount (deliverRuns [⟨true, true, true, true, 5⟩] w0).success_count +
      getCount (deliverRuns [⟨true, true, true, true, 5⟩] w0).failure_count =
      getCount w0.success_count + getCount w0.failure_count + 1) ∧
    ∀ ctxs2 : List DeliverCtx,
      getCount w0.success_count ≤
        getCount (deliverRuns ctxs2 w0).success_count ∧
      getCount w0.failure_count ≤
        getCount (deliverRuns ctxs2 w0).failure_count :=
  C5_counter_accounting [⟨true, true, true, true, 5⟩] w0
    (by intro c hc; simp at hc; subst hc; exact ⟨rfl, rfl, rfl⟩)

/-- C5 counterexample: an execution that finds the event missing returns
without incrementing either counter, so after one execution on zeroed
counters the counter sum is 0, not 1 — an attempt is unaccounted for,
refuting the exact-accounting claim. -/
theorem C5_counterexample :
    getCount (send_single_webhook ⟨true, false, true, true, 7⟩ w0).1.success_count +
      getCount (send_single_webhook ⟨true, false, true, true, 7⟩ w0).1.failure_count
      = 0 := by decide

/-! ## C10 — totality of `send_webhook` over HTTP outcomes -/

/-- C10: `send_webhook` is total over HTTP outcomes and classifies them as
the claim states: a response is a success exactly when its status code is
below 400 and its recorded body is the 1000-character truncation of the
response body; a timeout yields a failure result carrying the timeout
message; a network error yields a failure result carrying its message. -/
theorem C10_send_webhook_total (status : Nat) (body : List Char)
    (msg : String) (rb : List Char)
    (hrb : (send_webhook (.response status body)).response_body = some rb) :
    ((send_webhook (.response status body)).success = true ↔ status < 400) ∧
    rb = body.take 1000 ∧ rb.length ≤ 1000 ∧
    (send_webhook .timeout).success = false ∧
    (send_webhook .timeout).error = some "Request timed out" ∧
    (send_webhook (.netError msg)).success = false ∧
    (send_webhook (.netError msg)).error = some msg := by
  have hb : rb = body.take 1000 := by
    by_cases hbe : body = []
    · simp [send_webhook, hbe] at hrb
    · simp [send_webhook, hbe] at hrb
      simp [hrb]
  refine ⟨by simp [send_webhook], hb, ?_, rfl, rfl, rfl, rfl⟩
  rw [hb]
  exact List.length_take_le 1000 body

/-- C10 witness: the theorem applied at a concrete response outcome. -/
theorem C10_witness :
    ((send_webhook (.response 200 ['a'])).success = true ↔ 200 < 400) ∧
    ['a'] = ['a'].take 1000 ∧ (['a'] : List Char).length ≤ 1000 ∧
    (send_webhook .timeout).success = false ∧
    (send_webhook .timeout).error = some "Request timed out" ∧
    (send_webhook (.netError "boom")).success = false ∧
    (send_webhook (.netError "boom")).error = some "boom" :=
  C10_send_webhook_total 200 ['a'] "boom" ['a'] (by decide)

/-! ## C6 — webhook notification retry exhaustion -/

/-- C6: starting from a pending notification with a zero retry counter,
five consecutive failing `send_webhook_notification` executions leave the
row `failed` with `retry_count = 5` and `error_message` populated, and
after each of the first four failures the counter equals the number of
failures so far while the status is still `pending`. -/
theorem C6_retry_exhaustion (n : NotifRow) (errs : List (Option String × Nat))
    (hs : n.status = "pending") (hr : getCount n.retry_count = 0)
    (hlen : errs.length = 5) :
    ((runWebhookNotifFailures errs n).status = "failed" ∧
     (runWebhookNotifFailures errs n).retry_count = some 5 ∧
     (runWebhookNotifFailures errs n).error_message ≠ none) ∧
    ∀ k, k < 5 →
      (runWebhookNotifFailures (errs.take k) n).status = "pending" ∧
      getCount (runWebhookNotifFailures (errs.take k) n).retry_count = k := by
  rcases errs with _ | ⟨a, _ | ⟨b, _ | ⟨c, _ | ⟨d, _ | ⟨e, _ | ⟨f, t⟩⟩⟩⟩⟩⟩ <;>
    simp only [List.length_nil, List.length_cons] at hlen <;> try omega
  have hrc : n.retry_count = none ∨ n.retry_count = some 0 := by
    cases h : n.retry_count with
    | none => exact Or.inl rfl
    | some v =>
        right
        simp [getCount, h] at hr
        rw [hr]
  constructor
  · rcases hrc with h | h <;>
      simp [runWebhookNotifFailures, send_webhook_notification, getCount, hs, h]
  · intro k hk
    interval_cases k <;> rcases hrc with h | h <;>
      simp [runWebhookNotifFailures, send_webhook_notification, getCount, hs,
        h, List.take]

/-- C6 witness: the theorem applied to a fresh pending notification and a
concrete sequence of five failures. -/
theorem C6_witness :
    ((runWebhookNotifFailures
        [(none, 1), (none, 2), (none, 3), (none, 4), (some "x", 5)] n0).status
        = "failed" ∧
     (runWebhookNotifFailures
        [(none, 1), (none, 2), (none, 3), (none, 4), (some "x", 5)] n0).retry_count
        = some 5 ∧
     (runWebhookNotifFailures
        [(none, 1), (none, 2), (none, 3), (none, 4), (some "x", 5)] n0).error_message
        ≠ none) ∧
    ∀ k, k < 5 →
      (runWebhookNotifFailures
        (([(none, 1), (none, 2), (none, 3), (none, 4), (some "x", 5)] :
          List (Option String × Nat)).take k) n0).status = "pending" ∧
      getCount (runWebhookNotifFailures
        (([(none, 1), (none, 2), (none, 3), (none, 4), (some "x", 5)] :
          List (Option String × Nat)).take k) n0).retry_count = k :=
  C6_retry_exhaustion n0 [(none, 1), (none, 2), (none, 3), (none, 4), (some "x", 5)]
    rfl rfl rfl

/-! ## C7 — time-range parsing of `generate_event_aggregations` -/

/-- C7 counterexample: the time range `d` ends with the recognized suffix
`d` but has no numeric prefix, so `int()` raises, the generic handler
catches, and the task returns its error result — neither a window of that
many days nor the claimed 7-day default with daily and hourly counts. -/
theorem C7_counterexample :
    generate_event_aggregations 1000000 [⟨0, 999999⟩] 0 "d" = .error := by
  decide

/-- C7 amended: when the prefix before a `d`/`w`/`m` suffix parses as an
integer the window is that many days, 7 times it, or 30 times it
respectively; a string ending in none of the three suffixes defaults to a
7-day window and behaves exactly like `7d`, returning the daily counts and
the hour-of-day distribution; but a `d`-suffixed string whose prefix does
not parse makes the task return its error result instead of defaulting. -/
theorem C7_window_parse (now : Nat) (events : List EventTS) (uid : Nat)
    (s : String) (k : Int) :
    (pyInt (dropLastChar s) = some k →
      (strEndsWith s "d" = true → parseWindowDays s = some k) ∧
      (strEndsWith s "d" = false → strEndsWith s "w" = true →
        parseWindowDays s = some (k * 7)) ∧
      (strEndsWith s "d" = false → strEndsWith s "w" = false →
        strEndsWith s "m" = true → parseWindowDays s = some (k * 30))) ∧
    (strEndsWith s "d" = false → strEndsWith s "w" = false →
      strEndsWith s "m" = false →
      parseWindowDays s = some 7 ∧
      generate_event_aggregations now events uid s =
        generate_event_aggregations now events uid "7d" ∧
      ∃ daily hourly,
        generate_event_aggregations now events uid s = .ok daily hourly) ∧
    (pyInt (dropLastChar s) = none → strEndsWith s "d" = true →
      generate_event_aggregations now events uid s = .error) := by
  have h7 : parseWindowDays "7d" = some 7 := by decide
  refine ⟨fun hp => ⟨?_, ?_, ?_⟩, fun h1 h2 h3 => ⟨?_, ?_, ?_⟩, fun hp h1 => ?_⟩
  · intro h1; simp [parseWindowDays, h1, hp]
  · intro h1 h2; simp [parseWindowDays, h1, h2, hp]
  · intro h1 h2 h3; simp [parseWindowDays, h1, h2, h3, hp]
  · simp [parseWindowDays, h1, h2, h3]
  · have hps : parseWindowDays s = some 7 := by
      simp [parseWindowDays, h1, h2, h3]
    simp [generate_event_aggregations, hps, h7]
  · simp [generate_event_aggregations, parseWindowDays, h1, h2, h3]
  · simp [generate_event_aggregations, parseWindowDays, h1, hp]

/-- C7 witness: the amended theorem applied to the unrecognized range `x`
and, through a second application, to the failing range `d`. -/
theorem C7_witness :
    (parseWindowDays "x" = some 7 ∧
      generate_event_aggregations 9 [⟨0, 5⟩] 0 "x" =
        generate_event_aggregations 9 [⟨0, 5⟩] 0 "7d" ∧
      ∃ daily hourly,
        generate_event_aggregations 9 [⟨0, 5⟩] 0 "x" = .ok daily hourly) ∧
    generate_event_aggregations 9 [⟨0, 5⟩] 0 "d" = .error :=
  ⟨(C7_window_parse 9 [⟨0, 5⟩] 0 "x" 0).2.1 (by decide) (by decide) (by decide),
   (C7_window_parse 9 [⟨0, 5⟩] 0 "d" 0).2.2 (by decide) (by decide)⟩

/-! ## C8 — metadata supplied to `create_and_send_notification` -/

/-- C8, behaviour at the failing input: the notification is committed
`pending` first and, for the `in_app` channel, committed `sent` with
`sent_at` right after, and the `email` channel enqueues the email task —
but the supplied metadata `{k: v}` is NOT carried in `extra_data`, which
stays the empty default in both commits: the `metadata=` keyword does not
name the `extra_data` column, so its value is silently dropped. -/
theorem C8_metadata_not_persisted :
    ((create_and_send_notification 5 "in_app" "t" "c"
        (some [("k", "v")])).commits.map
        (fun n => (n.status, n.extra_data, n.sent_at)) =
      [("pending", [], none), ("sent", [], some 5)]) ∧
    (create_and_send_notification 5 "email" "t" "c"
        (some [("k", "v")])).commits.map
        (fun n => (n.status, n.extra_data, n.sent_at)) =
      [("pending", [], none)] ∧
    (create_and_send_notification 5 "email" "t" "c"
        (some [("k", "v")])).emailEnqueued = true ∧
    (create_and_send_notification 5 "in_app" "t" "c"
        (some [("k", "v")])).emailEnqueued = false := by decide

/-! ## C9 — the `read_at` discipline of the read mutations -/

/-- C9 counterexample: marking an already-read notification read again
overwrites its existing `read_at` (5 becomes 9) without any
`is_read = false → true` transition, refuting the claim that no operation
overwrites an existing `read_at`. -/
theorem C9_counterexample :
    (markNotificationRead 9
        (some { n0 with is_read := true, read_at := some 5 })).map
      NotifRow.read_at = some (some 9) := by decide

/-- C9 amended: the bulk mutation touches exactly the unread rows, setting
`read_at` only on the `is_read = false → true` transition and leaving
already-read rows (and their `read_at`) untouched; the single-notification
mutation however sets `is_read` and `read_at` unconditionally, so repeated
calls overwrite `read_at` (see the counterexample). -/
theorem C9_read_at_discipline (now : Nat) (n : NotifRow) (ns : List NotifRow) :
    markNotificationRead now (some n) =
      some { n with is_read := true, read_at := some now } ∧
    List.Forall₂ (fun m m2 =>
        (m.is_read = true → m2 = m) ∧
        (m.is_read = false →
          m2 = { m with is_read := true, read_at := some now }))
      ns (markAllNotificationsRead now ns) := by
  refine ⟨rfl, ?_⟩
  induction ns with
  | nil => exact List.Forall₂.nil
  | cons m t ih =>
      refine List.Forall₂.cons ?_ ih
      by_cases h : m.is_read
      · simp [markAllNotificationsRead, h]
      · simp only [Bool.not_eq_true] at h
        simp [markAllNotificationsRead, h]

/-! ## C3 — signature round-trip and alteration detection

Facts about byte lists and the digest shape, used both to prove the
round-trip behaviour and to exhibit (non-constructively, by counting) that
HMAC-SHA256 is not injective on equal-length payloads. -/

theorem natBytes_length (len n : Nat) : (natBytes len n).length = len := by
  induction len generalizing n with
  | zero => rfl
  | succ l ih => simp [natBytes, ih]

theorem bytesVal_natBytes (len n : Nat) (h : n < 256 ^ len) :
    bytesVal (natBytes len n) = n := by
  induction len generalizing n with
  | zero =>
      simp only [pow_zero] at h
      simp [natBytes, bytesVal]
      omega
  | succ l ih =>
      have hd : n / 256 < 256 ^ l := by
        rw [Nat.div_lt_iff_lt_mul (by norm_num)]
        calc n < 256 ^ (l + 1) := h
          _ = 256 ^ l * 256 := by rw [pow_succ]
      simp [natBytes, bytesVal, ih _ hd]
      omega

theorem bytesVal_lt (l : List Nat) (h : ∀ b ∈ l, b < 256) :
    bytesVal l < 256 ^ l.length := by
  induction l with
  | nil => simp [bytesVal]
  | cons b t ih =>
      have hb := h b (List.mem_cons_self b t)
      have ht := ih (fun x hx => h x (List.mem_cons_of_mem b hx))
      simp only [bytesVal, List.length_cons, pow_succ]
      generalize hq : (256 : Nat) ^ t.length = q at ht
      omega

theorem bytesVal_inj : ∀ l1 l2 : List Nat, l1.length = l2.length →
    (∀ b ∈ l1, b < 256) → (∀ b ∈ l2, b < 256) →
    bytesVal l1 = bytesVal l2 → l1 = l2
  | [], [], _, _, _, _ => rfl
  | [], _ :: _, hlen, _, _, _ => by simp at hlen
  | _ :: _, [], hlen, _, _, _ => by simp at hlen
  | a :: t, b :: u, hlen, h1, h2, h => by
      have ha := h1 a (List.mem_cons_self a t)
      have hb := h2 b (List.mem_cons_self b u)
      simp only [bytesVal] at h
      have hab : a = b := by omega
      have hvt : bytesVal t = bytesVal u := by omega
      have htu : t = u :=
        bytesVal_inj t u (by simpa using hlen)
          (fun x hx => h1 x (List.mem_cons_of_mem a hx))
          (fun x hx => h2 x (List.mem_cons_of_mem b hx)) hvt
      rw [hab, htu]

theorem wordBytes_lt (w : Nat) : ∀ b ∈ wordBytes w, b < 256 := by
  intro b hb
  simp only [wordBytes, List.mem_cons, List.not_mem_nil, or_false] at hb
  rcases hb with rfl | rfl | rfl | rfl <;> exact Nat.mod_lt _ (by norm_num)

theorem sha256_mem_lt (m : List Nat) : ∀ b ∈ sha256 m, b < 256 := by
  simp only [sha256, List.forall_mem_append]
  refine ⟨⟨⟨⟨⟨⟨⟨?_, ?_⟩, ?_⟩, ?_⟩, ?_⟩, ?_⟩, ?_⟩, ?_⟩ <;> exact wordBytes_lt _

theorem sha256_length (m : List Nat) : (sha256 m).length = 32 := by
  simp [sha256, wordBytes]

theorem hmacSha256_mem_lt (secret payload : List Nat) :
    ∀ b ∈ hmacSha256 secret payload, b < 256 := by
  simp only [hmacSha256]
  exact sha256_mem_lt _

theorem hmacSha256_length (secret payload : List Nat) :
    (hmacSha256 secret payload).length = 32 := by
  simp only [hmacSha256]
  exact sha256_length _

/-- C3 amended: the signature round-trip always verifies; every altered
signature (any change at all, byte or otherwise) is rejected; and an
altered payload is rejected exactly when its HMAC digest differs from the
original payload's digest — which cannot hold for every altered payload,
since HMAC-SHA256 is not injective on equal-length payloads (see the
counterexample). -/
theorem C3_signature_roundtrip (p p2 : List Nat) (sig : String)
    (secret : List Nat) :
    verify_signature p (generate_signature p secret) secret = true ∧
    (sig ≠ generate_signature p secret →
      verify_signature p sig secret = false) ∧
    (generate_signature p2 secret ≠ generate_signature p secret →
      verify_signature p2 (generate_signature p secret) secret = false) := by
  refine ⟨?_, fun h => ?_, fun h => ?_⟩
  · simp [verify_signature, compare_digest]
  · simp only [verify_signature, compare_digest, beq_eq_false_iff_ne, ne_eq]
    exact fun e => h e.symm
  · simp only [verify_signature, compare_digest, beq_eq_false_iff_ne, ne_eq]
    exact h

set_option maxRecDepth 200000 in
/-- C3 witness: the amended theorem applied at concrete one-byte payloads,
an empty (hence altered) signature and the empty secret, with both
alteration hypotheses discharged by evaluation. -/
theorem C3_witness :
    verify_signature [0] (generate_signature [0] []) [] = true ∧
    verify_signature [0] "" [] = false ∧
    verify_signature [1] (generate_signature [0] []) [] = false :=
  have h := C3_signature_roundtrip [0] [1] "" []
  ⟨h.1, h.2.1 (by decide), h.2.2 (by decide)⟩

set_option maxHeartbeats 2000000 in
/-- C3 counterexample: the altered-payload half of the claim is false:
there exist two distinct payloads of equal length such that the signature
generated for the first verifies against the second.  The two payloads
share one HMAC-SHA256 digest by counting: there are more 33-byte payloads
than 32-byte digests. -/
theorem C3_counterexample :
    ∃ p p2 : List Nat, p.length = p2.length ∧ p ≠ p2 ∧
      verify_signature p2 (generate_signature p []) [] = true := by
  have h256 : (256 : Nat) ^ 32 = 2 ^ 256 := by
    have h8 : (256 : Nat) = 2 ^ 8 := by norm_num
    calc (256 : Nat) ^ 32 = (2 ^ 8) ^ 32 := by rw [h8]
      _ = 2 ^ (8 * 32) := by rw [← pow_mul]
      _ = 2 ^ 256 := by norm_num
  have hcard : Fintype.card (Fin (2 ^ 256)) <
      Fintype.card (Fin (2 ^ 256 + 1)) := by
    rw [Fintype.card_fin, Fintype.card_fin]
    exact Nat.lt_succ_self _
  have hbound : ∀ q : Fin (2 ^ 256 + 1),
      bytesVal (hmacSha256 [] (natBytes 33 q.val)) < 2 ^ 256 := by
    intro q
    have h1 := bytesVal_lt _ (hmacSha256_mem_lt [] (natBytes 33 q.val))
    rw [hmacSha256_length, h256] at h1
    exact h1
  obtain ⟨q1, q2, hne, heq⟩ := Fintype.exists_ne_map_eq_of_card_lt
    (fun q : Fin (2 ^ 256 + 1) =>
      (⟨bytesVal (hmacSha256 [] (natBytes 33 q.val)), hbound q⟩ :
        Fin (2 ^ 256)))
    hcard
  have hv0 := congrArg Fin.val heq
  simp only [Fin.val_mk] at hv0
  have hL : (hmacSha256 [] (natBytes 33 q1.val)).length =
      (hmacSha256 [] (natBytes 33 q2.val)).length := by
    rw [hmacSha256_length, hmacSha256_length]
  have hdig : hmacSha256 [] (natBytes 33 q1.val) =
      hmacSha256 [] (natBytes 33 q2.val) :=
    bytesVal_inj _ _ hL (hmacSha256_mem_lt _ _) (hmacSha256_mem_lt _ _) hv0
  refine ⟨natBytes 33 q1.val, natBytes 33 q2.val,
    by rw [natBytes_length, natBytes_length], ?_, ?_⟩
  · intro e
    apply hne
    have hv1 : q1.val < 256 ^ 33 :=
      lt_of_lt_of_le q1.isLt (by norm_num)
    have hv2 : q2.val < 256 ^ 33 :=
      lt_of_lt_of_le q2.isLt (by norm_num)
    have hv := congrArg bytesVal e
    rw [bytesVal_natBytes 33 _ hv1, bytesVal_natBytes 33 _ hv2] at hv
    exact Fin.ext hv
  · simp only [verify_signature, compare_digest, generate_signature]
    rw [hdig]
    simp

end EventFlow
